import Mathlib

/-!
Shallow embedding of `docs/javascript/individual-progress.js` of the
`progress-tracker` repository.  The source file concatenates three browser
scripts:

* the per-page scanner (`individual-progress.js`, lines 1-115) with
  `parseCurrentPageProgress`;
* the static dashboard (`progress.js`, first variant, lines 116-292) with a
  hard-coded page list, `fetchHtmlContent` and its own `parseHtmlProgress`;
* the dynamic dashboard (`progress.js`, second variant, lines 293-529) that
  discovers pages from `search/search_index.json` via `populateFilesToTrack`
  and aggregates them in `renderConsolidatedDashboard`.

DOM elements are modelled by the attributes the scripts observe: an `<li>`
is a flag for the `task-list-item` class, an optional checkbox input and an
optional `data-checked` attribute.  An HTML string is modelled by `none`
(the empty string, falsy in `if (!htmlContent)`) or `some items` (a
non-empty string whose parse yields the given `<li>` elements in document
order).  JavaScript numbers are modelled as exact naturals/rationals; the
only arithmetic performed is counting and `Math.round((c / t) * 100)`.
-/

/-- Result record returned by the three parse functions.  The
`progressBarSvg` presentation string carried alongside in the source is
omitted; no claim concerns it. -/
structure TaskCount where
  completed : Nat
  total : Nat
  percentage : Nat
  deriving DecidableEq, Repr

/-- Model of an `<input type="checkbox">` element: its `id` attribute (the
empty string when absent, as in the DOM) and its `checked` property. -/
structure Checkbox where
  id : String
  checked : Bool
  deriving DecidableEq, Repr

/-- Model of an `<li>` element as the counting loops observe it: whether its
class list contains `task-list-item`, the first checkbox input inside it (if
any), and its `data-checked` attribute (if present). -/
structure ListItem where
  isTaskListItem : Bool
  checkbox : Option Checkbox
  dataChecked : Option String
  deriving DecidableEq, Repr

/-- An HTML string as the dashboard scripts observe it: `none` models the
empty string, `some items` a non-empty string parsing to those `<li>`s. -/
abbrev HtmlStr : Type := Option (List ListItem)

/-- The percentage computation shared verbatim by all three parse functions:
`totalCheckboxes === 0 ? 0 : Math.round((completedCheckboxes / totalCheckboxes) * 100)`.
JavaScript `Math.round` rounds half toward positive infinity, so on the
exact rational `(completed / total) * 100` it computes
`(200 * completed + total) / (2 * total)` in integer division. -/
def jsPercentage (completed total : Nat) : Nat :=
  if total = 0 then 0 else (200 * completed + total) / (2 * total)

/-- Loop body of `parseCurrentPageProgress` (lines 53-72): the accumulator is
the pair `(totalCheckboxes, completedCheckboxes)`.  A checkbox counts only
when present and its id is none of `__toc`, `__drawer`, `__search`. -/
def scannerStep (counts : Nat × Nat) (item : ListItem) : Nat × Nat :=
  match item.checkbox with
  | some cb =>
      if cb.id != "__toc" && cb.id != "__drawer" && cb.id != "__search" then
        (counts.1 + 1, if cb.checked then counts.2 + 1 else counts.2)
      else counts
  | none => counts

/-- `parseCurrentPageProgress` (lines 45-104): iterates over
`document.querySelectorAll('li.task-list-item')` — modelled by filtering the
document's `<li>` list — and tallies non-navigation checkboxes. -/
def parseCurrentPageProgress (doc : List ListItem) : TaskCount :=
  let counts := (doc.filter (·.isTaskListItem)).foldl scannerStep (0, 0)
  { completed := counts.2
    total := counts.1
    percentage := jsPercentage counts.2 counts.1 }

/-- Loop body of the static dashboard's `parseHtmlProgress` (lines 206-222):
an `<li>` counts when it has the `task-list-item` class or contains a
checkbox; it is completed when `data-checked` equals `"true"` or, failing
that, its checkbox is checked. -/
def staticStep (counts : Nat × Nat) (item : ListItem) : Nat × Nat :=
  if item.isTaskListItem || item.checkbox.isSome then
    (counts.1 + 1,
      if item.dataChecked == some "true" then counts.2 + 1
      else
        match item.checkbox with
        | some cb => if cb.checked then counts.2 + 1 else counts.2
        | none => counts.2)
  else counts

/-- The static dashboard's `parseHtmlProgress` (lines 182-244): an empty
string yields zeros; otherwise every `<li>` of the content area is visited
(`contentArea.querySelectorAll('li')`). -/
def parseHtmlProgressStatic (htmlContent : HtmlStr) : TaskCount :=
  match htmlContent with
  | none => { completed := 0, total := 0, percentage := 0 }
  | some items =>
      let counts := items.foldl staticStep (0, 0)
      { completed := counts.2
        total := counts.1
        percentage := jsPercentage counts.2 counts.1 }

/-- Loop body of the dynamic dashboard's `parseHtmlProgress` (lines
369-383): any present checkbox counts, with no id exclusion. -/
def dynamicStep (counts : Nat × Nat) (item : ListItem) : Nat × Nat :=
  match item.checkbox with
  | some cb => (counts.1 + 1, if cb.checked then counts.2 + 1 else counts.2)
  | none => counts

/-- The dynamic dashboard's `parseHtmlProgress` (lines 354-405): an empty
string yields zeros; otherwise it iterates over
`doc.querySelectorAll('li.task-list-item')` and counts every contained
checkbox by its `checked` property. -/
def parseHtmlProgress (htmlContent : HtmlStr) : TaskCount :=
  match htmlContent with
  | none => { completed := 0, total := 0, percentage := 0 }
  | some items =>
      let counts := (items.filter (·.isTaskListItem)).foldl dynamicStep (0, 0)
      { completed := counts.2
        total := counts.1
        percentage := jsPercentage counts.2 counts.1 }

/-- Per-item predicate of the scanner loop (after the class filter): the
item holds a checkbox whose id is not a navigation control. -/
def scanTask (item : ListItem) : Bool :=
  match item.checkbox with
  | some cb => cb.id != "__toc" && cb.id != "__drawer" && cb.id != "__search"
  | none => false

/-- Per-item predicate of the scanner loop for the completed tally. -/
def scanChecked (item : ListItem) : Bool :=
  match item.checkbox with
  | some cb =>
      (cb.id != "__toc" && cb.id != "__drawer" && cb.id != "__search") && cb.checked
  | none => false

/-- A task checkbox in the sense of claim C1: a checkbox input inside a list
item flagged as a task item whose id is none of the navigation controls. -/
def isTaskCheckbox (item : ListItem) : Bool :=
  item.isTaskListItem && scanTask item

/-- A checked task checkbox in the sense of claim C1. -/
def isCheckedTaskCheckbox (item : ListItem) : Bool :=
  item.isTaskListItem && scanChecked item

/-- Per-item task predicate of the dynamic dashboard's loop (after the
class filter): the item holds a checkbox. -/
def dynTask (item : ListItem) : Bool :=
  item.checkbox.isSome

/-- Per-item completed predicate of the dynamic dashboard's loop. -/
def dynChecked (item : ListItem) : Bool :=
  match item.checkbox with
  | some cb => cb.checked
  | none => false

/-- Per-item task predicate of the static dashboard's loop. -/
def statTask (item : ListItem) : Bool :=
  item.isTaskListItem || item.checkbox.isSome

/-- Per-item completed predicate of the static dashboard's loop. -/
def statChecked (item : ListItem) : Bool :=
  statTask item &&
    (item.dataChecked == some "true" ||
      match item.checkbox with
      | some cb => cb.checked
      | none => false)

/-- A fold with a step that increments the first component under `p` and the
second under `q` computes the two `countP` tallies. -/
theorem foldl_count_of_step (p q : ListItem → Bool)
    (step : Nat × Nat → ListItem → Nat × Nat)
    (hstep : ∀ counts x, step counts x =
      (counts.1 + (if p x then 1 else 0), counts.2 + (if q x then 1 else 0)))
    (l : List ListItem) (t c : Nat) :
    l.foldl step (t, c) = (t + l.countP p, c + l.countP q) := by
  induction l generalizing t c with
  | nil => simp
  | cons x xs ih =>
      rw [List.foldl_cons, hstep, List.countP_cons, List.countP_cons, ih]
      simp only [Prod.mk.injEq]
      constructor <;> split <;> omega

/-- The scanner's loop body in incremental form. -/
theorem scannerStep_eq (counts : Nat × Nat) (item : ListItem) :
    scannerStep counts item =
      (counts.1 + (if scanTask item then 1 else 0),
       counts.2 + (if scanChecked item then 1 else 0)) := by
  rcases item with ⟨tl, cb, dc⟩
  rcases cb with _ | ⟨cid, cc⟩
  · simp [scannerStep, scanTask, scanChecked]
  · by_cases h : (cid != "__toc" && cid != "__drawer" && cid != "__search") = true <;>
      cases cc <;> simp [scannerStep, scanTask, scanChecked, h]

/-- The dynamic dashboard's loop body in incremental form. -/
theorem dynamicStep_eq (counts : Nat × Nat) (item : ListItem) :
    dynamicStep counts item =
      (counts.1 + (if dynTask item then 1 else 0),
       counts.2 + (if dynChecked item then 1 else 0)) := by
  rcases item with ⟨tl, cb, dc⟩
  rcases cb with _ | ⟨cid, cc⟩
  · simp [dynamicStep, dynTask, dynChecked]
  · cases cc <;> simp [dynamicStep, dynTask, dynChecked]

/-- The static dashboard's loop body in incremental form. -/
theorem staticStep_eq (counts : Nat × Nat) (item : ListItem) :
    staticStep counts item =
      (counts.1 + (if statTask item then 1 else 0),
       counts.2 + (if statChecked item then 1 else 0)) := by
  rcases item with ⟨tl, cb, dc⟩
  rcases cb with _ | ⟨cid, cc⟩
  · by_cases hdc : (dc == some "true") = true <;> cases tl <;>
      simp [staticStep, statTask, statChecked, hdc]
  · by_cases hdc : (dc == some "true") = true <;> cases tl <;> cases cc <;>
      simp [staticStep, statTask, statChecked, hdc]

/-- Closed form of the scanner: its tallies are `countP` over the claim-level
task-checkbox predicates. -/
theorem parseCurrentPageProgress_eq (doc : List ListItem) :
    parseCurrentPageProgress doc =
      { completed := doc.countP isCheckedTaskCheckbox
        total := doc.countP isTaskCheckbox
        percentage := jsPercentage (doc.countP isCheckedTaskCheckbox)
          (doc.countP isTaskCheckbox) } := by
  unfold parseCurrentPageProgress
  rw [foldl_count_of_step scanTask scanChecked scannerStep scannerStep_eq,
    List.countP_filter, List.countP_filter]
  have h1 : (doc.countP fun a => scanTask a && a.isTaskListItem) =
      doc.countP isTaskCheckbox :=
    List.countP_congr (by
      intro x _
      simp [isTaskCheckbox, Bool.and_comm])
  have h2 : (doc.countP fun a => scanChecked a && a.isTaskListItem) =
      doc.countP isCheckedTaskCheckbox :=
    List.countP_congr (by
      intro x _
      simp [isCheckedTaskCheckbox, Bool.and_comm])
  simp [h1, h2]

/-- Closed form of the dynamic dashboard's parse on non-empty input. -/
theorem parseHtmlProgress_eq (items : List ListItem) :
    parseHtmlProgress (some items) =
      { completed := items.countP fun x => x.isTaskListItem && dynChecked x
        total := items.countP fun x => x.isTaskListItem && dynTask x
        percentage := jsPercentage
          (items.countP fun x => x.isTaskListItem && dynChecked x)
          (items.countP fun x => x.isTaskListItem && dynTask x) } := by
  simp only [parseHtmlProgress]
  rw [foldl_count_of_step dynTask dynChecked dynamicStep dynamicStep_eq,
    List.countP_filter, List.countP_filter]
  have h1 : (items.countP fun a => dynTask a && a.isTaskListItem) =
      items.countP fun x => x.isTaskListItem && dynTask x :=
    List.countP_congr (by intro x _; simp [Bool.and_comm])
  have h2 : (items.countP fun a => dynChecked a && a.isTaskListItem) =
      items.countP fun x => x.isTaskListItem && dynChecked x :=
    List.countP_congr (by intro x _; simp [Bool.and_comm])
  simp [h1, h2]

/-- Closed form of the static dashboard's parse on non-empty input. -/
theorem parseHtmlProgressStatic_eq (items : List ListItem) :
    parseHtmlProgressStatic (some items) =
      { completed := items.countP statChecked
        total := items.countP statTask
        percentage := jsPercentage (items.countP statChecked)
          (items.countP statTask) } := by
  simp only [parseHtmlProgressStatic]
  rw [foldl_count_of_step statTask statChecked staticStep staticStep_eq]
  simp

/-- The guarded integer percentage agrees with exact half-up rounding of
`100 * completed / total` whenever `total` is non-zero. -/
theorem jsPercentage_eq_round (c t : Nat) (ht : t ≠ 0) :
    (jsPercentage c t : ℤ) = round ((100 * (c : ℚ)) / (t : ℚ)) := by
  have ht' : (t : ℚ) ≠ 0 := Nat.cast_ne_zero.mpr ht
  rw [round_eq]
  have h1 : (100 * (c : ℚ)) / (t : ℚ) + 1 / 2 =
      ((200 * c + t : ℕ) : ℚ) / ((2 * t : ℕ) : ℚ) := by
    push_cast
    field_simp
    ring
  rw [h1]
  have hnn : (0 : ℚ) ≤ ((200 * c + t : ℕ) : ℚ) / ((2 * t : ℕ) : ℚ) := by
    positivity
  have h2 : ⌊((200 * c + t : ℕ) : ℚ) / ((2 * t : ℕ) : ℚ)⌋ =
      (((200 * c + t) / (2 * t) : ℕ) : ℤ) := by
    rw [← Int.toNat_of_nonneg (Int.floor_nonneg.mpr hnn), Int.floor_toNat,
      Nat.floor_div_nat, Nat.floor_natCast]
  rw [h2, jsPercentage, if_neg ht]

/-- C1: for every document, the page scanner returns `completed` equal to the
number of checked task checkboxes and `total` equal to the number of task
checkboxes — a task checkbox being a checkbox input inside a list item
flagged as a task item, excluding the navigation-control checkboxes `__toc`,
`__drawer`, `__search` — and, when the total is non-zero, `percentage`
equals `round(100 * completed / total)`. -/
theorem claim_C1_scanner_counts (doc : List ListItem) :
    (parseCurrentPageProgress doc).completed = doc.countP isCheckedTaskCheckbox ∧
    (parseCurrentPageProgress doc).total = doc.countP isTaskCheckbox ∧
    (doc.countP isTaskCheckbox ≠ 0 →
      ((parseCurrentPageProgress doc).percentage : ℤ) =
        round ((100 * ((doc.countP isCheckedTaskCheckbox : ℕ) : ℚ)) /
          ((doc.countP isTaskCheckbox : ℕ) : ℚ))) := by
  refine ⟨by rw [parseCurrentPageProgress_eq], by rw [parseCurrentPageProgress_eq],
    fun h => ?_⟩
  rw [parseCurrentPageProgress_eq]
  exact jsPercentage_eq_round _ _ h

/-- A concrete task item with an anonymous checkbox. -/
def sampleTaskItem (checked : Bool) : ListItem :=
  { isTaskListItem := true, checkbox := some { id := "", checked := checked }
    dataChecked := none }

/-- The spec's end-to-end example page: three task items, two checked. -/
def sampleDoc : List ListItem :=
  [sampleTaskItem true, sampleTaskItem true, sampleTaskItem false]

/-- Witness for C1 on the concrete three-item document. -/
theorem claim_C1_scanner_counts_witness :
    sampleDoc.countP isTaskCheckbox ≠ 0 ∧
    ((parseCurrentPageProgress sampleDoc).percentage : ℤ) =
      round ((100 * ((sampleDoc.countP isCheckedTaskCheckbox : ℕ) : ℚ)) /
        ((sampleDoc.countP isTaskCheckbox : ℕ) : ℚ)) :=
  ⟨by decide, (claim_C1_scanner_counts sampleDoc).2.2 (by decide)⟩

/-- The guarded percentage never exceeds 100 when `completed ≤ total`. -/
theorem jsPercentage_le_100 (c t : Nat) (h : c ≤ t) : jsPercentage c t ≤ 100 := by
  unfold jsPercentage
  split
  · omega
  · rename_i ht
    have h2t : 0 < 2 * t := by omega
    have hlt : (200 * c + t) / (2 * t) < 101 :=
      (Nat.div_lt_iff_lt_mul h2t).mpr (by omega)
    omega

/-- A checked task checkbox is in particular a task checkbox. -/
theorem isCheckedTaskCheckbox_imp (x : ListItem) :
    isCheckedTaskCheckbox x = true → isTaskCheckbox x = true := by
  rcases x with ⟨tl, cb, dc⟩
  rcases cb with _ | ⟨cid, cc⟩ <;>
    simp [isCheckedTaskCheckbox, isTaskCheckbox, scanTask, scanChecked] <;> tauto

/-- The dynamic loop's completed predicate implies its task predicate. -/
theorem dynChecked_imp (x : ListItem) :
    dynChecked x = true → dynTask x = true := by
  rcases x with ⟨tl, cb, dc⟩
  rcases cb with _ | ⟨cid, cc⟩ <;> simp [dynChecked, dynTask]

/-- The static loop's completed predicate implies its task predicate. -/
theorem statChecked_imp (x : ListItem) :
    statChecked x = true → statTask x = true := by
  unfold statChecked
  intro hx
  exact (Bool.and_eq_true_iff.mp hx).1

/-- C9: every `TaskCount` produced by any of the three parse functions
satisfies `0 ≤ completed ≤ total` and `0 ≤ percentage ≤ 100` (the lower
bounds are inherent to the `Nat` embedding of JavaScript's counters). -/
theorem claim_C9_taskcount_invariants :
    (∀ doc : List ListItem,
      (parseCurrentPageProgress doc).completed ≤ (parseCurrentPageProgress doc).total ∧
      (parseCurrentPageProgress doc).percentage ≤ 100) ∧
    (∀ h : HtmlStr,
      (parseHtmlProgressStatic h).completed ≤ (parseHtmlProgressStatic h).total ∧
      (parseHtmlProgressStatic h).percentage ≤ 100) ∧
    (∀ h : HtmlStr,
      (parseHtmlProgress h).completed ≤ (parseHtmlProgress h).total ∧
      (parseHtmlProgress h).percentage ≤ 100) := by
  refine ⟨fun doc => ?_, fun h => ?_, fun h => ?_⟩
  · rw [parseCurrentPageProgress_eq]
    have hct : doc.countP isCheckedTaskCheckbox ≤ doc.countP isTaskCheckbox :=
      List.countP_mono_left fun x _ => isCheckedTaskCheckbox_imp x
    exact ⟨hct, jsPercentage_le_100 _ _ hct⟩
  · rcases h with _ | items
    · exact ⟨Nat.le_refl 0, by simp [parseHtmlProgressStatic]⟩
    · rw [parseHtmlProgressStatic_eq]
      have hct : items.countP statChecked ≤ items.countP statTask :=
        List.countP_mono_left fun x _ => statChecked_imp x
      exact ⟨hct, jsPercentage_le_100 _ _ hct⟩
  · rcases h with _ | items
    · exact ⟨Nat.le_refl 0, by simp [parseHtmlProgress]⟩
    · rw [parseHtmlProgress_eq]
      have hct : (items.countP fun x => x.isTaskListItem && dynChecked x) ≤
          items.countP fun x => x.isTaskListItem && dynTask x :=
        List.countP_mono_left (by
          intro x _ hx
          rcases Bool.and_eq_true_iff.mp hx with ⟨h1, h2⟩
          exact Bool.and_eq_true_iff.mpr ⟨h1, dynChecked_imp x h2⟩)
      exact ⟨hct, jsPercentage_le_100 _ _ hct⟩

/-- C7: in each of the three parse functions a zero task total yields a zero
percentage; the division in the source is guarded by the ternary
`totalCheckboxes === 0 ? 0 : ...`, so it is never evaluated with a zero
divisor. -/
theorem claim_C7_zero_total_zero_percentage :
    (∀ doc : List ListItem, (parseCurrentPageProgress doc).total = 0 →
      (parseCurrentPageProgress doc).percentage = 0) ∧
    (∀ h : HtmlStr, (parseHtmlProgressStatic h).total = 0 →
      (parseHtmlProgressStatic h).percentage = 0) ∧
    (∀ h : HtmlStr, (parseHtmlProgress h).total = 0 →
      (parseHtmlProgress h).percentage = 0) := by
  refine ⟨fun doc h => ?_, fun html h => ?_, fun html h => ?_⟩
  · rw [parseCurrentPageProgress_eq] at h ⊢
    simp only at h ⊢
    rw [h]
    simp [jsPercentage]
  · rcases html with _ | items
    · simp [parseHtmlProgressStatic]
    · rw [parseHtmlProgressStatic_eq] at h ⊢
      simp only at h ⊢
      rw [h]
      simp [jsPercentage]
  · rcases html with _ | items
    · simp [parseHtmlProgress]
    · rw [parseHtmlProgress_eq] at h ⊢
      simp only at h ⊢
      rw [h]
      simp [jsPercentage]

/-- Witness for C7 on the empty document and the empty HTML string. -/
theorem claim_C7_zero_total_zero_percentage_witness :
    ((parseCurrentPageProgress []).total = 0 ∧
      (parseCurrentPageProgress []).percentage = 0) ∧
    ((parseHtmlProgressStatic none).total = 0 ∧
      (parseHtmlProgressStatic none).percentage = 0) ∧
    ((parseHtmlProgress none).total = 0 ∧
      (parseHtmlProgress none).percentage = 0) :=
  ⟨⟨by decide, claim_C7_zero_total_zero_percentage.1 [] (by decide)⟩,
    ⟨by decide, claim_C7_zero_total_zero_percentage.2.1 none (by decide)⟩,
    ⟨by decide, claim_C7_zero_total_zero_percentage.2.2 none (by decide)⟩⟩

/-- A task list item whose checkbox is the navigation toggle `__toc`. -/
def navTocItem : ListItem :=
  { isTaskListItem := true, checkbox := some { id := "__toc", checked := false }
    dataChecked := none }

/-- Counterexample to C4 as stated: on a document whose only task list item
carries the `__toc` navigation checkbox, the dynamic dashboard's
`parseHtmlProgress` counts one task while the page scanner counts none, so
the two counting rules are not the same function. -/
theorem claim_C4_counterexample :
    parseHtmlProgress (some [navTocItem]) ≠ parseCurrentPageProgress [navTocItem] ∧
    (parseHtmlProgress (some [navTocItem])).total = 1 ∧
    (parseCurrentPageProgress [navTocItem]).total = 0 := by
  decide

/-- Tells whether a list item's checkbox is one of the navigation controls
excluded by the page scanner. -/
def hasNavCheckbox (item : ListItem) : Bool :=
  match item.checkbox with
  | some cb => cb.id == "__toc" || cb.id == "__drawer" || cb.id == "__search"
  | none => false

/-- C4 amended: on every document none of whose list items carries a
navigation-control checkbox (`__toc`, `__drawer`, `__search`), the dynamic
dashboard's `parseHtmlProgress` and the page scanner's
`parseCurrentPageProgress` produce equal `TaskCount` results. -/
theorem claim_C4_amended_agree (items : List ListItem)
    (h : ∀ item ∈ items, hasNavCheckbox item = false) :
    parseHtmlProgress (some items) = parseCurrentPageProgress items := by
  rw [parseHtmlProgress_eq, parseCurrentPageProgress_eq]
  have ht : (items.countP fun x => x.isTaskListItem && dynTask x) =
      items.countP isTaskCheckbox :=
    List.countP_congr (by
      intro x hx
      have hnav := h x hx
      rcases x with ⟨tl, cb, dc⟩
      rcases cb with _ | ⟨cid, cc⟩ <;>
        simp [isTaskCheckbox, scanTask, dynTask, hasNavCheckbox] at hnav ⊢ <;>
        tauto)
  have hc : (items.countP fun x => x.isTaskListItem && dynChecked x) =
      items.countP isCheckedTaskCheckbox :=
    List.countP_congr (by
      intro x hx
      have hnav := h x hx
      rcases x with ⟨tl, cb, dc⟩
      rcases cb with _ | ⟨cid, cc⟩ <;>
        simp [isCheckedTaskCheckbox, scanChecked, dynChecked, hasNavCheckbox]
          at hnav ⊢ <;>
        tauto)
  rw [ht, hc]

/-- Witness for the amended C4 on the concrete three-item document. -/
theorem claim_C4_amended_agree_witness :
    (∀ item ∈ sampleDoc, hasNavCheckbox item = false) ∧
    parseHtmlProgress (some sampleDoc) = parseCurrentPageProgress sampleDoc :=
  ⟨by decide, claim_C4_amended_agree sampleDoc (by decide)⟩

/-- A record of the MkDocs `search_index.json` `docs` array as the resolver
reads it: its `location` and `title` fields.  `title` is the empty string
when absent, matching the falsy test `if (!name)` in the source. -/
structure IndexDoc where
  location : String
  title : String
  deriving DecidableEq, Repr

/-- A tracked page as built by the resolver (lines 452-456) and as listed in
the static dashboard's hard-coded array (lines 141-145). -/
structure TrackedPage where
  id : String
  name : String
  path : String
  deriving DecidableEq, Repr

/-- JavaScript `s.replace(/X$/, '')` for a literal `X`: removes one
occurrence anchored at the end of the string, if present. -/
def jsStripEnd (s suf : String) : String :=
  if s.endsWith suf then s.dropRight suf.length else s

/-- The top-level test of the resolver's filter (line 437):
`!doc.location.includes('/') || (doc.location.endsWith('/') && doc.location.split('/').length <= 2)`. -/
def isTopLevelPage (loc : String) : Bool :=
  !(loc.contains '/') ||
    (loc.endsWith "/" && decide ((loc.splitOn "/").length ≤ 2))

/-- The resolver's filter callback (lines 428-440): drop the dashboard's own
page (`index/`, `index.md`, `index.html`), keep top-level pages. -/
def keepDoc (d : IndexDoc) : Bool :=
  if d.location == "index/" || d.location == "index.md" ||
      d.location == "index.html" then
    false
  else isTopLevelPage d.location

/-- Display-name derivation used when the index entry has no title (lines
445-450): strip `.md`, `.html` and a trailing slash, take the last path
segment, replace underscores by spaces, capitalise the first character. -/
def deriveName (location : String) : String :=
  let name := jsStripEnd (jsStripEnd (jsStripEnd location ".md") ".html") "/"
  let name := (name.splitOn "/").getLastD ""
  let name := name.replace "_" " "
  (name.take 1).toUpper ++ name.drop 1

/-- The resolver's map callback (lines 441-457). -/
def toTrackedPage (d : IndexDoc) : TrackedPage :=
  { id := jsStripEnd (jsStripEnd (d.location.replace "/" "-") ".md") ".html"
    name := if d.title == "" then deriveName d.location else d.title
    path := d.location }

/-- Comparator of the final sort (line 460),
`(a, b) => a.name.localeCompare(b.name)`; `localeCompare` is modelled by the
order on Lean strings. -/
def nameLe (a b : TrackedPage) : Bool :=
  decide (a.name ≤ b.name)

/-- Pure core of `populateFilesToTrack` (lines 427-460) on a successfully
fetched and parsed index: filter the `docs` array, map the survivors to
tracked pages, and sort them by display name.  JavaScript
`Array.prototype.sort` is a stable sort, as is `List.mergeSort`. -/
def populateFilesToTrack (docs : List IndexDoc) : List TrackedPage :=
  ((docs.filter keepDoc).map toTrackedPage).mergeSort nameLe

/-- C2: the resolver's output consists, up to the final reordering by name,
of exactly the index entries that are neither the dashboard's own page
(`index/`, `index.md`, `index.html`) nor nested under a subpath beyond one
level — `isTopLevelPage` holding exactly of the locations with no slash and
of the single-segment directory locations `seg/` — each mapped to its
tracked page; every other index entry is kept. -/
theorem claim_C2_discovery_filter (docs : List IndexDoc) :
    (populateFilesToTrack docs).Perm
      ((docs.filter fun d =>
        !(d.location == "index/" || d.location == "index.md" ||
          d.location == "index.html") && isTopLevelPage d.location).map
        toTrackedPage) := by
  have hfil : docs.filter keepDoc = docs.filter fun d =>
      !(d.location == "index/" || d.location == "index.md" ||
        d.location == "index.html") && isTopLevelPage d.location := by
    refine List.filter_congr ?_
    intro d _
    by_cases h : (d.location == "index/" || d.location == "index.md" ||
        d.location == "index.html") = true <;>
      simp [keepDoc, h]
  rw [populateFilesToTrack, hfil]
  exact List.mergeSort_perm _ _

/-- C10: the resolver sorts its output by display name — the result is
sorted under the modelled `localeCompare` order and is a permutation of the
filtered index entries in site-index order. -/
theorem claim_C10_sorted_by_name (docs : List IndexDoc) :
    List.Sorted (fun a b : TrackedPage => a.name ≤ b.name)
      (populateFilesToTrack docs) ∧
    (populateFilesToTrack docs).Perm
      ((docs.filter keepDoc).map toTrackedPage) := by
  have htrans : ∀ a b c : TrackedPage,
      nameLe a b = true → nameLe b c = true → nameLe a c = true := by
    intro a b c hab hbc
    simp only [nameLe, decide_eq_true_eq] at hab hbc ⊢
    exact le_trans hab hbc
  have htotal : ∀ a b : TrackedPage, (nameLe a b || nameLe b a) = true := by
    intro a b
    simp only [nameLe, Bool.or_eq_true, decide_eq_true_eq]
    exact le_total a.name b.name
  refine ⟨?_, List.mergeSort_perm _ _⟩
  have hp := List.sorted_mergeSort htrans htotal
    ((docs.filter keepDoc).map toTrackedPage)
  exact hp.imp fun h => by simpa [nameLe] using h

/-- Outcome of a `fetch` call as the scripts distinguish it: a successful
response with its body, a non-success HTTP status (`!response.ok`), or a
thrown transport/parse error (the `catch` path). -/
inductive FetchResult (α : Type) where
  | ok (body : α)
  | httpError (status : Nat)
  | thrown
  deriving DecidableEq

/-- `fetchHtmlContent` (dynamic dashboard, lines 326-346; the static
dashboard's copy at lines 152-173 behaves identically): the body on
success, the empty string on a non-success status or a thrown error.
`network` gives the outcome of the underlying `fetch` for each page path. -/
def fetchHtmlContent (network : String → FetchResult HtmlStr)
    (pagePath : String) : HtmlStr :=
  match network pagePath with
  | .ok body => body
  | .httpError _ => none
  | .thrown => none

/-- The aggregation loop shared by both dashboards (lines 253-257 and
488-492): `for (const file of filesToTrack) { const htmlContent = await
fetchHtmlContent(file.path); const progress = parseHtmlProgress(htmlContent);
allProgressData.push({...file, ...progress}); }`, parameterised by the
dashboard's parse function. -/
def aggregateProgress (parse : HtmlStr → TaskCount)
    (network : String → FetchResult HtmlStr) :
    List TrackedPage → List (TrackedPage × TaskCount)
  | [] => []
  | file :: rest =>
      (file, parse (fetchHtmlContent network file.path)) ::
        aggregateProgress parse network rest

/-- C5: for every page list, the aggregator pushes exactly one entry per
input page, so its output has the input's length and its entries appear in
input order, whatever the outcome of each individual fetch. -/
theorem claim_C5_aggregator_length_order (parse : HtmlStr → TaskCount)
    (network : String → FetchResult HtmlStr) (files : List TrackedPage) :
    (aggregateProgress parse network files).length = files.length ∧
    (aggregateProgress parse network files).map Prod.fst = files := by
  induction files with
  | nil => simp [aggregateProgress]
  | cons f fs ih => simp [aggregateProgress, ih.1, ih.2]

/-- C6: a page whose fetch fails — non-success HTTP status or thrown
transport error — is recorded with `completed = 0`, `total = 0` and the
batch continues with the remaining pages unchanged; the embedding is a
total function, so no exception escapes the loop. -/
theorem claim_C6_failed_fetch_zero (network : String → FetchResult HtmlStr)
    (file : TrackedPage) (files : List TrackedPage)
    (h : (∃ s, network file.path = FetchResult.httpError s) ∨
      network file.path = FetchResult.thrown) :
    aggregateProgress parseHtmlProgress network (file :: files) =
      (file, { completed := 0, total := 0, percentage := 0 }) ::
        aggregateProgress parseHtmlProgress network files := by
  rcases h with ⟨s, h⟩ | h <;>
    simp [aggregateProgress, fetchHtmlContent, h, parseHtmlProgress]

/-- A network on which every fetch fails with HTTP status 404. -/
def failNetwork : String → FetchResult HtmlStr :=
  fun _ => FetchResult.httpError 404

/-- A concrete tracked page, as in the static dashboard's array. -/
def samplePage : TrackedPage :=
  { id := "frontend", name := "Frontend Development", path := "frontend/" }

/-- Witness for C6: a failing fetch of one concrete page. -/
theorem claim_C6_failed_fetch_zero_witness :
    ((∃ s, failNetwork samplePage.path = FetchResult.httpError s) ∨
      failNetwork samplePage.path = FetchResult.thrown) ∧
    aggregateProgress parseHtmlProgress failNetwork [samplePage] =
      [(samplePage, { completed := 0, total := 0, percentage := 0 })] :=
  ⟨Or.inl ⟨404, rfl⟩,
    claim_C6_failed_fetch_zero failNetwork samplePage [] (Or.inl ⟨404, rfl⟩)⟩

/-- The distinct contents the dashboard scripts assign to the container
element (`innerHTML` writes), abstracted by which message or markup is
written. -/
inductive DashContent where
  | loading
  | indexFetchError
  | indexParseError
  | noTrackedPages
  | noProgressData
  | cards (data : List (TrackedPage × TaskCount))
  deriving DecidableEq

/-- Final observable state of a dashboard run: the container's last content
and the page paths fetched by the aggregation loop, in order. -/
structure DashState where
  content : DashContent
  fetchedPaths : List String
  deriving DecidableEq

/-- Effectful behaviour of `populateFilesToTrack` (lines 411-468): on a
successful index fetch the container is left as it was and the filtered,
sorted page list is returned; on a non-success status (line 419) or a
thrown error (line 466) the corresponding inline error message is written
and `filesToTrack` stays empty. -/
def populateFilesToTrackRun (indexRes : FetchResult (List IndexDoc))
    (container : DashContent) : DashContent × List TrackedPage :=
  match indexRes with
  | .ok docs => (container, populateFilesToTrack docs)
  | .httpError _ => (DashContent.indexFetchError, [])
  | .thrown => (DashContent.indexParseError, [])

/-- `renderConsolidatedDashboard` (lines 473-518): writes the loading
message, populates the page list, and either reports an empty list (line
483, an `innerHTML` write that replaces whatever `populateFilesToTrack`
left in the container) or fetches and renders one card per page. -/
def renderConsolidatedDashboard (indexRes : FetchResult (List IndexDoc))
    (network : String → FetchResult HtmlStr) : DashState :=
  let populated := populateFilesToTrackRun indexRes DashContent.loading
  let filesToTrack := populated.2
  if filesToTrack.length = 0 then
    { content := DashContent.noTrackedPages, fetchedPaths := [] }
  else
    let allProgressData := aggregateProgress parseHtmlProgress network filesToTrack
    if allProgressData.length = 0 then
      { content := DashContent.noProgressData
        fetchedPaths := filesToTrack.map (·.path) }
    else
      { content := DashContent.cards allProgressData
        fetchedPaths := filesToTrack.map (·.path) }

/-- The static dashboard's hard-coded page list (lines 141-145). -/
def staticFilesToTrack : List TrackedPage :=
  [ { id := "project-setup", name := "Project Setup Tasks", path := "project_setup/" }
  , { id := "frontend", name := "Frontend Development", path := "frontend/" }
  , { id := "backend", name := "Backend Development", path := "backend/" } ]

/-- `renderProgressDashboard` of the static dashboard (lines 249-283). -/
def renderProgressDashboard (network : String → FetchResult HtmlStr) : DashState :=
  let allProgressData :=
    aggregateProgress parseHtmlProgressStatic network staticFilesToTrack
  if allProgressData.length = 0 then
    { content := DashContent.noProgressData
      fetchedPaths := staticFilesToTrack.map (·.path) }
  else
    { content := DashContent.cards allProgressData
      fetchedPaths := staticFilesToTrack.map (·.path) }

/-- The dynamic dashboard's `DOMContentLoaded` handler (lines 295-528):
when `progress-dashboard-container` is absent it only logs and returns
(lines 300-303); otherwise it runs `renderConsolidatedDashboard`. -/
def dynamicDashboardMain (hasContainer : Bool)
    (indexRes : FetchResult (List IndexDoc))
    (network : String → FetchResult HtmlStr) : Option DashState :=
  if hasContainer then some (renderConsolidatedDashboard indexRes network)
  else none

/-- The static dashboard's `DOMContentLoaded` handler (lines 118-291): when
the container is absent it only warns and returns (lines 120-123). -/
def staticDashboardMain (hasContainer : Bool)
    (network : String → FetchResult HtmlStr) : Option DashState :=
  if hasContainer then some (renderProgressDashboard network) else none

/-- C8: with the dashboard container absent, both dashboard handlers return
without rendering anything; the embedding is a total function, so no
exception reaches the caller, and the source emits only a console message
on this path. -/
theorem claim_C8_missing_container_aborts :
    (∀ (indexRes : FetchResult (List IndexDoc))
      (network : String → FetchResult HtmlStr),
      dynamicDashboardMain false indexRes network = none) ∧
    (∀ network : String → FetchResult HtmlStr,
      staticDashboardMain false network = none) :=
  ⟨fun _ _ => rfl, fun _ => rfl⟩

/-- C3 behaviour at the failing input: when the index fetch fails with a
non-success status or a thrown error, no per-page fetch is issued, but the
container's final content is the generic no-tracked-pages notice — the
inline error message written by `populateFilesToTrack` is overwritten by
the empty-list branch of `renderConsolidatedDashboard` (line 483). -/
theorem claim_C3_index_failure_behavior
    (network : String → FetchResult HtmlStr) (status : Nat) :
    (renderConsolidatedDashboard (FetchResult.httpError status) network =
        { content := DashContent.noTrackedPages, fetchedPaths := [] } ∧
      renderConsolidatedDashboard FetchResult.thrown network =
        { content := DashContent.noTrackedPages, fetchedPaths := [] }) ∧
    DashContent.noTrackedPages ≠ DashContent.indexFetchError ∧
    DashContent.noTrackedPages ≠ DashContent.indexParseError :=
  ⟨⟨rfl, rfl⟩, by decide, by decide⟩
